import Mathlib

/-!
Shallow embedding of `src/snake.cpp`, a terminal snake game.

The C++ program keeps its whole game state in globals (`WIDTH`, `HEIGHT`,
`snake`, `food`, `dir`, `useHalfSize`, `gameRunning`, `isPaused`); here the
state is a `GameState` record threaded explicitly.  C++ `int` is modelled as
`Int`.  Every `/` and `%` the program performs is on non-negative operands,
where C++ truncating division agrees with Lean's Euclidean `Int` division.
Randomness (`std::rand`) is modelled by passing an explicit stream of draws,
and terminal I/O (pending input bytes, `ioctl` size probe) by explicit
parameters.  Process exit (`exit(status)`) is modelled as a returned
`ExitOutcome` value.
-/

/-- `struct Coord { int x; int y; }` (snake.cpp lines 19-22). -/
@[ext]
structure Coord where
  x : Int
  y : Int
deriving DecidableEq, Repr

/-- `enum Direction { STOP = 0, LEFT, RIGHT, UP, DOWN }` (line 28). -/
inductive Direction where
  | STOP
  | LEFT
  | RIGHT
  | UP
  | DOWN
deriving DecidableEq, Repr

/-- The program's global game state.  `snake` lists the body cells with the
head as the LAST element (`snake.back()` in C++); `food` is the single food
cell; `dir` the heading. -/
structure GameState where
  width : Int
  height : Int
  snake : List Coord
  food : Coord
  dir : Direction
  useHalfSize : Bool
  gameRunning : Bool
  isPaused : Bool
deriving DecidableEq, Repr

/-- The globals' values at program start: `WIDTH = 20`, `HEIGHT = 10`
(lines 10-11), `snake` empty, zero-initialised `food` and `dir`
(`dir = STOP` since `STOP = 0`), all flags false (lines 25-33). -/
def initialState : GameState where
  width := 20
  height := 10
  snake := []
  food := ⟨0, 0⟩
  dir := Direction.STOP
  useHalfSize := false
  gameRunning := false
  isPaused := false

/-- The inner loop body of `checkCollision` / `generateFoodPosition`:
`part.x == c.x && part.y == c.y` for some `part` of the snake. -/
def onSnake (snake : List Coord) (c : Coord) : Bool :=
  snake.any fun part => decide (part.x = c.x ∧ part.y = c.y)

/-- `checkCollision` (lines 372-386): returns the empty string for no
collision, or a reason message.  The wall test comes first, then the
self test over the whole (pre-move) snake. -/
def checkCollision (width height : Int) (snake : List Coord) (head : Coord) : String :=
  if head.x = 0 ∨ head.x = width - 1 ∨ head.y = 0 ∨ head.y = height - 1 then
    "You hit a wall!"
  else if onSnake snake head then
    "You ran into yourself!"
  else
    ""

/-- The head shift of `updateSnake` (lines 395-410): one unit along the
current direction; `STOP` and the `default` branch leave the head in place. -/
def moveHead (d : Direction) (head : Coord) : Coord :=
  match d with
  | Direction.UP => { head with y := head.y - 1 }
  | Direction.DOWN => { head with y := head.y + 1 }
  | Direction.LEFT => { head with x := head.x - 1 }
  | Direction.RIGHT => { head with x := head.x + 1 }
  | Direction.STOP => head

/-- `cleanupAndExit` (lines 60-63): restores buffered input
(`setBufferedInput(true)`) and exits with the given status.  Modelled as the
pair of observable effects. -/
structure ExitOutcome where
  restoredInput : Bool
  status : Int
deriving DecidableEq, Repr

/-- `cleanupAndExit(status)`: always restores the terminal, then `exit(status)`. -/
def cleanupAndExit (status : Int) : ExitOutcome where
  restoredInput := true
  status := status

/-- Result of one `updateSnake` call: either the game continues in a new
state, or the process terminates with a printed message and an exit. -/
inductive StepResult where
  | next (g : GameState)
  | gameOver (message : String) (exitOutcome : ExitOutcome)
deriving DecidableEq, Repr

/-- `generateFoodPosition` (lines 108-127): rejection sampling.  Each C++
iteration draws `rand()` twice; the draws are passed here as an explicit
list of non-negative pairs, and the unbounded `do … while` loop returns
`none` when the supplied draws run out.  `rand() % (WIDTH-2) + 1` on a
non-negative `rand()` and positive modulus is exactly Euclidean `%`. -/
def generateFoodPosition (width height : Int) (snake : List Coord) :
    List (Nat × Nat) → Option Coord
  | [] => none
  | (rx, ry) :: rest =>
    let newFood : Coord := ⟨(rx : Int) % (width - 2) + 1, (ry : Int) % (height - 2) + 1⟩
    if onSnake snake newFood then
      generateFoodPosition width height snake rest
    else
      some newFood

/-- `updateSnake` (lines 388-429), with the fresh food draws passed in for
the eating branch.  `snake.back()` on an empty vector is undefined in C++;
the program's invariant keeps the snake non-empty, and the unreachable empty
case is modelled as a no-op. -/
def updateSnake (g : GameState) (foodDraws : List (Nat × Nat)) : StepResult :=
  if g.dir = Direction.STOP then
    StepResult.next g
  else
    match g.snake.getLast? with
    | none => StepResult.next g
    | some back =>
      let head := moveHead g.dir back
      let reason := checkCollision g.width g.height g.snake head
      if reason ≠ "" then
        StepResult.gameOver ("Game Over! " ++ reason) (cleanupAndExit 0)
      else
        let grown := g.snake ++ [head]
        if head.x = g.food.x ∧ head.y = g.food.y then
          match generateFoodPosition g.width g.height grown foodDraws with
          | some f => StepResult.next { g with snake := grown, food := f }
          | none => StepResult.next { g with snake := grown }
        else
          StepResult.next { g with snake := grown.tail }

/-- A cell of the playable interior (spec §3): not on the wall ring. -/
def isInterior (width height : Int) (c : Coord) : Prop :=
  1 ≤ c.x ∧ c.x ≤ width - 2 ∧ 1 ≤ c.y ∧ c.y ≤ height - 2

instance (width height : Int) (c : Coord) : Decidable (isInterior width height c) := by
  unfold isInterior
  infer_instance

/-- `initializeDimensions` (lines 129-150).  `probe` is the result of the
`ioctl(TIOCGWINSZ)` terminal-size query: `some (cols, rows)` on success,
`none` on failure.  `w`/`h` are the current global `WIDTH`/`HEIGHT`, left
untouched when probing fails.  Returns the new dimensions and a flag that is
true exactly when the diagnostic message is printed to `stderr`. -/
def initializeDimensions (useHalfSize : Bool) (probe : Option (Int × Int))
    (w h : Int) : (Int × Int) × Bool :=
  match probe with
  | some (cols, rows) =>
    let newW := cols
    let newH := rows
    let newW := if newW < 20 then 20 else newW
    let newH := if newH < 10 then 10 else newH
    let newH := if newH > 2 then newH - 1 else newH
    if useHalfSize then ((newW / 2, newH / 2), false) else ((newW, newH), false)
  | none => ((w, h), true)

/-- `initializeGame` (lines 152-161): sets `gameRunning`, resets the snake to
the single centre cell `{WIDTH/2, HEIGHT/2}`, and places food via
`generateFoodPosition` (the random draws are passed in; when they are
exhausted the food is left as it was, a case the real loop never exits). -/
def initializeGame (g : GameState) (foodDraws : List (Nat × Nat)) : GameState :=
  let started := { g with gameRunning := true,
                          snake := [⟨g.width / 2, g.height / 2⟩] }
  match generateFoodPosition started.width started.height started.snake foodDraws with
  | some f => { started with food := f }
  | none => started

/-- The escape byte `'\033'` = 27. -/
def escByte : Char := Char.ofNat 27

/-- Result of one `readInput` call (lines 312-369): the input bytes left
unconsumed, the new heading and pause flag, and whether the call handed
control to `showMenu`. -/
structure InputResult where
  rest : List Char
  dir : Direction
  isPaused : Bool
  openedMenu : Bool
deriving DecidableEq, Repr

/-- `readInput` (lines 312-369).  `input` is the pending byte queue
(`FIONREAD` count = `input.length`).  No pending byte: return at once.
`ESC` with nothing further pending: open the menu and clear the pause flag
(lines 326-331, and line 359 after the menu returns).  `ESC` with more
pending: read two further bytes of the escape sequence and discard the
whole sequence (lines 332-335).  Otherwise the `switch` of lines 338-366;
its `case 27` duplicate of the menu branch is unreachable because `ESC` was
already handled. -/
def readInput (input : List Char) (d : Direction) (paused : Bool) : InputResult :=
  match input with
  | [] => ⟨[], d, paused, false⟩
  | c :: rest =>
    if c = escByte then
      if rest.isEmpty then
        ⟨rest, d, false, true⟩
      else
        ⟨rest.drop 2, d, paused, false⟩
    else if c = 'w' then ⟨rest, if d ≠ Direction.DOWN then Direction.UP else d, paused, false⟩
    else if c = 's' then ⟨rest, if d ≠ Direction.UP then Direction.DOWN else d, paused, false⟩
    else if c = 'a' then ⟨rest, if d ≠ Direction.RIGHT then Direction.LEFT else d, paused, false⟩
    else if c = 'd' then ⟨rest, if d ≠ Direction.LEFT then Direction.RIGHT else d, paused, false⟩
    else if c = 'p' ∨ c = 'P' then ⟨rest, d, !paused, false⟩
    else if c = 'm' ∨ c = 'M' then ⟨rest, d, false, true⟩
    else if c = 'x' then ⟨rest, Direction.STOP, paused, false⟩
    else ⟨rest, d, paused, false⟩

/-- Result of a `showMenu` call (lines 196-280): resume into the game with
the (possibly re-initialised) state and the input bytes still pending, quit
via `cleanupAndExit(0)`, or block waiting for input that the supplied queue
does not contain. -/
inductive MenuResult where
  | resume (g : GameState) (rest : List Char)
  | quit (g : GameState) (exitOutcome : ExitOutcome)
  | blocked (g : GameState)
deriving DecidableEq, Repr

/-- `showMenu(allowResize)` (lines 196-280) over an explicit pending-byte
queue.  An `ESC` followed by further pending bytes drains ALL pending bytes
(lines 237-258) and loops; with the queue then empty the menu blocks.  A
choice of `'1'`/`'m'`/`'M'`/bare `ESC` starts or resumes the game (lines
265-269), re-initialising only when no game is running.  `'2'` (permitted
only with `allowResize` and no running game) toggles half-size and re-probes
the dimensions (lines 270-272); `probe` supplies the re-probe result.
`'3'` shows the controls screen, which swallows one byte (line 193).
`'4'` quits.  Anything else redraws and loops. -/
def showMenuAux (allowResize : Bool) (probe : Option (Int × Int))
    (foodDraws : List (Nat × Nat)) : Nat → GameState → List Char → MenuResult
  | _, g, [] => MenuResult.blocked g
  | 0, g, _ => MenuResult.blocked g
  | fuel + 1, g, choice :: rest =>
    if choice = escByte ∧ rest ≠ [] then
      showMenuAux allowResize probe foodDraws fuel g []
    else if choice = '1' ∨ choice = 'm' ∨ choice = 'M' ∨ choice = escByte then
      MenuResult.resume (if g.gameRunning then g else initializeGame g foodDraws) rest
    else if choice = '2' ∧ allowResize ∧ ¬g.gameRunning then
      let toggled := { g with useHalfSize := !g.useHalfSize }
      let dims := initializeDimensions toggled.useHalfSize probe toggled.width toggled.height
      showMenuAux allowResize probe foodDraws fuel
        { toggled with width := dims.1.1, height := dims.1.2 } rest
    else if choice = '3' then
      showMenuAux allowResize probe foodDraws fuel g (rest.drop 1)
    else if choice = '4' then
      MenuResult.quit g (cleanupAndExit 0)
    else
      showMenuAux allowResize probe foodDraws fuel g rest

/-- `showMenu` proper: every menu iteration consumes at least one pending
byte, so `input.length` bounds the number of iterations the supplied queue
can drive, and the fuelled recursion is exact (the fuel-exhausted branch is
reachable only with an empty queue, where it agrees with blocking). -/
def showMenu (allowResize : Bool) (probe : Option (Int × Int))
    (foodDraws : List (Nat × Nat)) (g : GameState) (input : List Char) : MenuResult :=
  showMenuAux allowResize probe foodDraws input.length g input

/-- The menu branch of `readInput` (lines 355-360): `showMenu(false)` then
`isPaused = false` once the menu returns into the game. -/
def openMenuDuringPlay (probe : Option (Int × Int)) (foodDraws : List (Nat × Nat))
    (g : GameState) (menuInput : List Char) : MenuResult :=
  match showMenu false probe foodDraws g menuInput with
  | MenuResult.resume g2 rest => MenuResult.resume { g2 with isPaused := false } rest
  | r => r

/-- The observable actions of one iteration of the `while (true)` loop of
`main` (lines 475-502), in program order. -/
inductive LoopEvent where
  | clearEv
  | drawPauseEv
  | drawBoardEv
  | readInputEv
  | updateSnakeEv
  | sleepEv
  | cursorHomeEv
deriving DecidableEq, Repr

/-- Line 495's guard: the snake moves this frame iff `dir != STOP` and
`frameCount % effectiveMoveFrames == 0`, where vertical headings use
`verticalFrames = 2` and the rest `horizontalFrames = 1` (lines 468-492). -/
def tickMoves (d : Direction) (frameCount : Nat) : Bool :=
  let effectiveMoveFrames : Nat := if d = Direction.UP ∨ d = Direction.DOWN then 2 else 1
  decide (d ≠ Direction.STOP) && decide (frameCount % effectiveMoveFrames = 0)

/-- The event order of one main-loop iteration (lines 475-502): when paused,
clear, pause banner, input, sleep, cursor home (lines 476-483); otherwise
the board is drawn FIRST (line 485), then input is read (line 486), then —
on a moving frame — the snake is updated (line 496), then sleep and cursor
home. -/
def loopBodyEvents (paused : Bool) (d : Direction) (frameCount : Nat) : List LoopEvent :=
  if paused then
    [LoopEvent.clearEv, LoopEvent.drawPauseEv, LoopEvent.readInputEv,
     LoopEvent.sleepEv, LoopEvent.cursorHomeEv]
  else
    [LoopEvent.drawBoardEv, LoopEvent.readInputEv] ++
      (if tickMoves d frameCount then [LoopEvent.updateSnakeEv] else []) ++
      [LoopEvent.sleepEv, LoopEvent.cursorHomeEv]

/-- The exact opposite of a heading; `STOP` has none (mapped to itself, which
no movement key decodes to). -/
def oppositeDir (d : Direction) : Direction :=
  match d with
  | Direction.UP => Direction.DOWN
  | Direction.DOWN => Direction.UP
  | Direction.LEFT => Direction.RIGHT
  | Direction.RIGHT => Direction.LEFT
  | Direction.STOP => Direction.STOP

/-- The direction a movement key decodes to (`STOP` for non-movement keys). -/
def moveKeyDir (c : Char) : Direction :=
  if c = 'w' then Direction.UP
  else if c = 's' then Direction.DOWN
  else if c = 'a' then Direction.LEFT
  else if c = 'd' then Direction.RIGHT
  else Direction.STOP

/-- The interior of the board as a finite set of coordinate pairs. -/
def interiorCells (width height : Int) : Finset (Int × Int) :=
  Finset.Icc 1 (width - 2) ×ˢ Finset.Icc 1 (height - 2)

/-- The set of coordinate pairs occupied by the snake. -/
def occupiedCells (snake : List Coord) : Finset (Int × Int) :=
  (snake.map fun part => (part.x, part.y)).toFinset

/-- The spec §8 wall scenario: snake `[(18,5)]` heading Right on a 20×10
board, so the candidate head `(19,5)` lies on the right wall. -/
def wallGame : GameState where
  width := 20
  height := 10
  snake := [⟨18, 5⟩]
  food := ⟨5, 5⟩
  dir := Direction.RIGHT
  useHalfSize := false
  gameRunning := true
  isPaused := false

/-- The spec §8 plain-move scenario: snake `[(10,5)]` heading Right on a
20×10 board with the food elsewhere. -/
def moveGame : GameState where
  width := 20
  height := 10
  snake := [⟨10, 5⟩]
  food := ⟨15, 5⟩
  dir := Direction.RIGHT
  useHalfSize := false
  gameRunning := true
  isPaused := false

lemma onSnake_eq_true_iff (snake : List Coord) (c : Coord) :
    onSnake snake c = true ↔ ∃ part ∈ snake, part.x = c.x ∧ part.y = c.y := by
  simp [onSnake]

lemma mem_occupiedCells (snake : List Coord) (p : Int × Int) :
    p ∈ occupiedCells snake ↔ ∃ part ∈ snake, part.x = p.1 ∧ part.y = p.2 := by
  simp [occupiedCells, Prod.ext_iff]

/-- Claim C1: one `updateSnake` call never decreases the snake's length; it
increases it by exactly one iff the new head cell equals the current food
cell (otherwise the tail cell is removed and the length is unchanged); with
direction `STOP` the snake and the food are left completely unchanged. -/
theorem updateSnake_length_spec (g : GameState) (foodDraws : List (Nat × Nat))
    (hne : g.snake ≠ []) :
    (g.dir = Direction.STOP → updateSnake g foodDraws = StepResult.next g) ∧
    (∀ back, g.snake.getLast? = some back →
      ∀ g2, updateSnake g foodDraws = StepResult.next g2 →
        g.snake.length ≤ g2.snake.length ∧
        (g2.snake.length = g.snake.length + 1 ↔
          (g.dir ≠ Direction.STOP ∧ moveHead g.dir back = g.food)) ∧
        (g.dir = Direction.STOP → g2 = g ∧ g2.food = g.food) ∧
        (g.dir ≠ Direction.STOP → moveHead g.dir back ≠ g.food →
          g2.snake = (g.snake ++ [moveHead g.dir back]).tail ∧
          g2.snake.length = g.snake.length)) := by
  constructor
  · intro hstop
    rw [updateSnake, if_pos hstop]
  · intro back hb g2 hstep
    by_cases hstop : g.dir = Direction.STOP
    · rw [updateSnake, if_pos hstop] at hstep
      obtain rfl : g = g2 := by cases hstep; rfl
      refine ⟨le_refl _, ?_, fun _ => ⟨rfl, rfl⟩, fun hd _ => absurd hstop hd⟩
      simp [hstop]
    · rw [updateSnake, if_neg hstop, hb] at hstep
      simp only [] at hstep
      by_cases hc : checkCollision g.width g.height g.snake (moveHead g.dir back) ≠ ""
      · rw [if_pos hc] at hstep
        exact absurd hstep (by simp)
      · rw [if_neg hc] at hstep
        by_cases hfood : (moveHead g.dir back).x = g.food.x ∧ (moveHead g.dir back).y = g.food.y
        · rw [if_pos hfood] at hstep
          have hfood2 : moveHead g.dir back = g.food := Coord.ext hfood.1 hfood.2
          have hsnake : g2.snake = g.snake ++ [moveHead g.dir back] := by
            cases hgen : generateFoodPosition g.width g.height
                (g.snake ++ [moveHead g.dir back]) foodDraws <;>
              rw [hgen] at hstep <;> cases hstep <;> rfl
          rw [hsnake]
          simp [hstop, hfood2]
        · rw [if_neg hfood] at hstep
          have hfood2 : moveHead g.dir back ≠ g.food := by
            intro hcontr
            rw [hcontr] at hfood
            exact hfood ⟨rfl, rfl⟩
          have hsnake : g2.snake = (g.snake ++ [moveHead g.dir back]).tail := by
            cases hstep
            rfl
          have hlen : g2.snake.length = g.snake.length := by
            rw [hsnake]
            cases hsn : g.snake with
            | nil => exact absurd hsn hne
            | cons a l => simp
          refine ⟨le_of_eq hlen.symm, ?_, fun hd => absurd hd hstop, fun _ _ => ⟨hsnake, hlen⟩⟩
          rw [hlen]
          simp [hstop, hfood2]

/-- Witness for C1: the spec's plain-move scenario, snake `[(10,5)]` moving
Right onto an empty cell: the step succeeds and the length does not drop. -/
theorem updateSnake_length_spec_witness :
    (updateSnake moveGame [] = StepResult.next { moveGame with snake := [⟨11, 5⟩] }) ∧
    moveGame.snake.length ≤ ({ moveGame with snake := [⟨11, 5⟩] } : GameState).snake.length :=
  ⟨by decide,
   ((updateSnake_length_spec moveGame [] (by decide)).2 ⟨10, 5⟩ (by decide)
      { moveGame with snake := [⟨11, 5⟩] } (by decide)).1⟩

/-- Claim C2: `checkCollision` reports a wall hit exactly on the wall ring
`x ∈ {0, w-1} ∨ y ∈ {0, h-1}`; for an interior candidate head it reports a
self hit iff the head lies on the pre-move snake; for an interior head not
on the snake it reports no collision; and the wall test precedes the self
test (the wall answer holds for every snake, occupied or not). -/
theorem checkCollision_classification (w h : Int) (snake : List Coord) (head : Coord)
    (hw : 20 ≤ w) (hh : 10 ≤ h) :
    (checkCollision w h snake head = "You hit a wall!" ↔
      (head.x = 0 ∨ head.x = w - 1 ∨ head.y = 0 ∨ head.y = h - 1)) ∧
    (isInterior w h head →
      (checkCollision w h snake head = "You ran into yourself!" ↔ onSnake snake head = true)) ∧
    (isInterior w h head → onSnake snake head = false → checkCollision w h snake head = "") := by
  refine ⟨?_, ?_, ?_⟩
  · by_cases hwall : head.x = 0 ∨ head.x = w - 1 ∨ head.y = 0 ∨ head.y = h - 1
    · rw [checkCollision, if_pos hwall]
      simp [hwall]
    · rw [checkCollision, if_neg hwall]
      by_cases hs : onSnake snake head
      · rw [if_pos hs]
        simp [hwall]
      · rw [if_neg hs]
        simp [hwall]
  · intro hint
    obtain ⟨h1, h2, h3, h4⟩ := hint
    rw [checkCollision, if_neg (by omega)]
    by_cases hs : onSnake snake head
    · rw [if_pos hs]
      simp [hs]
    · rw [if_neg hs]
      simp [hs]
  · intro hint hs
    obtain ⟨h1, h2, h3, h4⟩ := hint
    rw [checkCollision, if_neg (by omega), if_neg (by simp [hs])]

/-- Witness for C2: the classification at the spec's wall scenario,
candidate head `(19,5)` on a 20×10 board with snake `[(5,5)]`. -/
theorem checkCollision_classification_witness :
    (checkCollision 20 10 [⟨5, 5⟩] ⟨19, 5⟩ = "You hit a wall!" ↔
      ((19 : Int) = 0 ∨ (19 : Int) = 20 - 1 ∨ (5 : Int) = 0 ∨ (5 : Int) = 10 - 1)) ∧
    (isInterior 20 10 ⟨19, 5⟩ →
      (checkCollision 20 10 [⟨5, 5⟩] ⟨19, 5⟩ = "You ran into yourself!" ↔
        onSnake [⟨5, 5⟩] ⟨19, 5⟩ = true)) ∧
    (isInterior 20 10 ⟨19, 5⟩ → onSnake [⟨5, 5⟩] ⟨19, 5⟩ = false →
      checkCollision 20 10 [⟨5, 5⟩] ⟨19, 5⟩ = "") :=
  checkCollision_classification 20 10 [⟨5, 5⟩] ⟨19, 5⟩ (by decide) (by decide)

/-- Counterexample to claim C3 as stated: after a successful probe of a
10-row terminal the final height is 9, not ≥ 10 (the one-row reservation
runs after the clamp); and with the half-size toggle a 30-column terminal
yields width 15 < 20 (the halving runs after the clamp and the halved
values are not re-clamped). -/
theorem initializeDimensions_min_counterexample :
    initializeDimensions false (some (80, 10)) 20 10 = ((80, 9), false) ∧
    ¬ (10 ≤ (initializeDimensions false (some (80, 10)) 20 10).1.2) ∧
    initializeDimensions true (some (30, 24)) 20 10 = ((15, 11), false) ∧
    ¬ (20 ≤ (initializeDimensions true (some (30, 24)) 20 10).1.1) := by
  refine ⟨by decide, by decide, by decide, by decide⟩

/-- Claim C3 amended: on a successful probe the inputs are clamped to the
20×10 minimums FIRST, then one row is reserved, then the half-size halving
is applied without re-clamping; so the final dimensions are exactly
`(max cols 20, max rows 10 - 1)` at full size (hence width ≥ 20 and
height ≥ 9) and their halves in half-size mode (hence width ≥ 10 and
height ≥ 4); when probing fails the dimensions are left unchanged (the
20×10 startup defaults on the first call) and a diagnostic is surfaced. -/
theorem initializeDimensions_bounds :
    (∀ cols rows w h,
      initializeDimensions false (some (cols, rows)) w h =
        ((max cols 20, max rows 10 - 1), false) ∧
      initializeDimensions true (some (cols, rows)) w h =
        ((max cols 20 / 2, (max rows 10 - 1) / 2), false) ∧
      20 ≤ max cols 20 ∧ 9 ≤ max rows 10 - 1 ∧
      10 ≤ max cols 20 / 2 ∧ 4 ≤ (max rows 10 - 1) / 2) ∧
    (∀ half w h, initializeDimensions half none w h = ((w, h), true)) := by
  constructor
  · intro cols rows w h
    rw [initializeDimensions, initializeDimensions]
    refine ⟨?_, ?_, ?_, ?_, ?_, ?_⟩ <;>
      simp only [max_def, Prod.mk.injEq] <;> split_ifs <;> simp_all <;> omega
  · intro half w h
    rfl

/-- Witness for C3 (amended): the full-size equation at a 80×24 probe. -/
theorem initializeDimensions_bounds_witness :
    initializeDimensions false (some (80, 24)) 20 10 =
      ((max 80 20, max 24 10 - 1), false) :=
  (initializeDimensions_bounds.1 80 24 20 10).1

/-- Counterexample to claim C4 as stated: in an unpaused moving tick the
loop body's event order is draw, read input, update — the motion step runs
AFTER the frame is rendered, so the movement caused by this tick's input is
not in this tick's frame. -/
theorem loopBody_order_counterexample :
    loopBodyEvents false Direction.RIGHT 0 =
      [LoopEvent.drawBoardEv, LoopEvent.readInputEv, LoopEvent.updateSnakeEv,
       LoopEvent.sleepEv, LoopEvent.cursorHomeEv] ∧
    ¬ ((loopBodyEvents false Direction.RIGHT 0).indexOf LoopEvent.updateSnakeEv <
        (loopBodyEvents false Direction.RIGHT 0).indexOf LoopEvent.drawBoardEv) := by
  refine ⟨by decide, by decide⟩

/-- Claim C4 amended: within every unpaused tick, input is decoded before
the motion step is applied, but the frame is rendered FIRST (it is the
tick's initial event), so a direction change registered in a tick affects
the movement applied that tick and is first visible in the next tick's
frame; the motion step runs exactly on the frames `tickMoves` selects. -/
theorem loopBody_order_amended (d : Direction) (frameCount : Nat) :
    ((loopBodyEvents false d frameCount).indexOf LoopEvent.readInputEv <
      (loopBodyEvents false d frameCount).indexOf LoopEvent.updateSnakeEv) ∧
    ((loopBodyEvents false d frameCount).head? = some LoopEvent.drawBoardEv) ∧
    (tickMoves d frameCount = true →
      LoopEvent.updateSnakeEv ∈ loopBodyEvents false d frameCount) ∧
    (tickMoves d frameCount = false →
      ¬ LoopEvent.updateSnakeEv ∈ loopBodyEvents false d frameCount) := by
  by_cases htm : tickMoves d frameCount = true
  · rw [loopBodyEvents]
    rw [if_neg (by simp)]
    rw [htm]
    refine ⟨by decide, by decide, fun _ => by decide, fun hf => absurd hf (by decide)⟩
  · rw [loopBodyEvents]
    rw [if_neg (by simp)]
    rw [Bool.not_eq_true] at htm
    rw [htm]
    refine ⟨by decide, by decide, fun ht => absurd ht (by decide), fun _ => by decide⟩

/-- Witness for C4 (amended): the moving tick with heading Right at frame 0
does contain the motion step. -/
theorem loopBody_order_amended_witness :
    LoopEvent.updateSnakeEv ∈ loopBodyEvents false Direction.RIGHT 0 :=
  (loopBody_order_amended Direction.RIGHT 0).2.2.1 (by decide)

/-- Claim C5: whenever the snake occupies fewer cells than the board's
interior, food placement only ever returns an interior cell disjoint from
every snake cell, and some sequence of random draws makes it return. -/
theorem generateFoodPosition_spec (w h : Int) (snake : List Coord)
    (hw : 20 ≤ w) (hh : 10 ≤ h)
    (hcard : (occupiedCells snake).card < (interiorCells w h).card) :
    (∀ draws c, generateFoodPosition w h snake draws = some c →
      isInterior w h c ∧ onSnake snake c = false) ∧
    (∃ draws c, generateFoodPosition w h snake draws = some c) := by
  constructor
  · intro draws
    induction draws with
    | nil =>
      intro c hc
      exact absurd hc (by rw [generateFoodPosition]; simp)
    | cons p rest ih =>
      intro c hc
      obtain ⟨rx, ry⟩ := p
      rw [generateFoodPosition] at hc
      by_cases hon : onSnake snake ⟨(rx : Int) % (w - 2) + 1, (ry : Int) % (h - 2) + 1⟩
      · rw [if_pos hon] at hc
        exact ih c hc
      · rw [if_neg hon] at hc
        obtain rfl : (⟨(rx : Int) % (w - 2) + 1, (ry : Int) % (h - 2) + 1⟩ : Coord) = c :=
          by cases hc; rfl
        have hx0 : 0 ≤ (rx : Int) % (w - 2) := Int.emod_nonneg _ (by omega)
        have hx1 : (rx : Int) % (w - 2) < w - 2 := Int.emod_lt_of_pos _ (by omega)
        have hy0 : 0 ≤ (ry : Int) % (h - 2) := Int.emod_nonneg _ (by omega)
        have hy1 : (ry : Int) % (h - 2) < h - 2 := Int.emod_lt_of_pos _ (by omega)
        refine ⟨by dsimp only [isInterior]; omega, by simpa using hon⟩
  · have hns : ¬ (interiorCells w h ⊆ occupiedCells snake) :=
      fun hsub => absurd (Finset.card_le_card hsub) (by omega)
    obtain ⟨p, hpI, hpS⟩ := Finset.not_subset.mp hns
    obtain ⟨px, py⟩ := p
    rw [interiorCells, Finset.mem_product, Finset.mem_Icc, Finset.mem_Icc] at hpI
    obtain ⟨⟨hx1, hx2⟩, hy1, hy2⟩ := hpI
    have hon : onSnake snake ⟨px, py⟩ = false := by
      rw [← Bool.not_eq_true, onSnake_eq_true_iff]
      intro ⟨part, hmem, hpx, hpy⟩
      exact hpS ((mem_occupiedCells snake (px, py)).mpr ⟨part, hmem, hpx, hpy⟩)
    refine ⟨[((px - 1).toNat, (py - 1).toNat)], ⟨px, py⟩, ?_⟩
    rw [generateFoodPosition]
    have hxcast : (((px - 1).toNat : Int)) = px - 1 := Int.toNat_of_nonneg (by omega)
    have hycast : (((py - 1).toNat : Int)) = py - 1 := Int.toNat_of_nonneg (by omega)
    have hxmod : ((px - 1).toNat : Int) % (w - 2) + 1 = px := by
      rw [hxcast, Int.emod_eq_of_lt (by omega) (by omega)]
      omega
    have hymod : ((py - 1).toNat : Int) % (h - 2) + 1 = py := by
      rw [hycast, Int.emod_eq_of_lt (by omega) (by omega)]
      omega
    rw [hxmod, hymod, hon]
    rfl

lemma sampleCard_lt : (occupiedCells [⟨10, 5⟩]).card < (interiorCells 20 10).card := by
  rw [interiorCells, Finset.card_product, Int.card_Icc, Int.card_Icc, occupiedCells]
  norm_num
  decide

/-- Witness for C5: snake `[(10,5)]` on a 20×10 board; the draw `(0,0)`
lands the food on the interior cell `(1,1)` off the snake. -/
theorem generateFoodPosition_spec_witness :
    (isInterior 20 10 ⟨1, 1⟩ ∧ onSnake [⟨10, 5⟩] ⟨1, 1⟩ = false) ∧
    (∃ draws c, generateFoodPosition 20 10 [⟨10, 5⟩] draws = some c) :=
  ⟨(generateFoodPosition_spec 20 10 [⟨10, 5⟩] (by decide) (by decide)
      sampleCard_lt).1 [(0, 0)] ⟨1, 1⟩ (by decide),
   (generateFoodPosition_spec 20 10 [⟨10, 5⟩] (by decide) (by decide) sampleCard_lt).2⟩

/-- Claim C6: consuming the byte `0x1B` with nothing further pending opens
the menu (clearing the pause flag); with further bytes pending the whole
escape sequence (e.g. `ESC '[' final`) is consumed and discarded, never
moving the snake or opening the menu — and inside the menu an `ESC` with
pending bytes is likewise drained rather than treated as a bare escape. -/
theorem readInput_escape_protocol :
    (∀ d paused, readInput [escByte] d paused = ⟨[], d, false, true⟩) ∧
    (∀ d paused rest, rest ≠ [] →
      readInput (escByte :: rest) d paused = ⟨rest.drop 2, d, paused, false⟩) ∧
    (∀ d paused b, readInput [escByte, '[', b] d paused = ⟨[], d, paused, false⟩) ∧
    (∀ g probe foodDraws rest, rest ≠ [] →
      showMenu false probe foodDraws g (escByte :: rest) = MenuResult.blocked g) := by
  refine ⟨?_, ?_, ?_, ?_⟩
  · intro d paused
    rfl
  · intro d paused rest hr
    cases rest with
    | nil => exact absurd rfl hr
    | cons a l => rfl
  · intro d paused b
    rfl
  · intro g probe foodDraws rest hr
    cases rest with
    | nil => exact absurd rfl hr
    | cons a l =>
      show showMenuAux false probe foodDraws (a :: l).length.succ g (escByte :: a :: l) =
        MenuResult.blocked g
      rw [showMenuAux, if_pos ⟨rfl, by simp⟩]
      rfl

/-- Witness for C6: a bare `ESC` opens the menu; the arrow-key sequence
`ESC '[' 'A'` is swallowed with the heading unchanged, in play and in the
menu alike. -/
theorem readInput_escape_protocol_witness :
    (readInput [escByte] Direction.UP true = ⟨[], Direction.UP, false, true⟩) ∧
    (readInput [escByte, '[', 'A'] Direction.UP false = ⟨[], Direction.UP, false, false⟩) ∧
    (showMenu false (some (80, 24)) [] initialState [escByte, '[', 'A'] =
      MenuResult.blocked initialState) :=
  ⟨readInput_escape_protocol.1 Direction.UP true,
   readInput_escape_protocol.2.2.1 Direction.UP false 'A',
   readInput_escape_protocol.2.2.2 initialState (some (80, 24)) [] ['[', 'A'] (by decide)⟩

/-- Claim C7: a movement key w/a/s/d sets the heading to its direction
unless that direction is the exact opposite of the current heading, in
which case the key is a no-op (the U-turn guard). -/
theorem readInput_uturn_guard (d : Direction) (paused : Bool) (k : Char)
    (hk : k = 'w' ∨ k = 'a' ∨ k = 's' ∨ k = 'd') :
    (readInput [k] d paused).dir =
      if moveKeyDir k = oppositeDir d then d else moveKeyDir k := by
  rcases hk with rfl | rfl | rfl | rfl <;> cases d <;> cases paused <;> decide

/-- Witness for C7: `'w'` against a Down heading is ignored; `'d'` against
an Up heading turns Right. -/
theorem readInput_uturn_guard_witness :
    ((readInput ['w'] Direction.DOWN false).dir =
      if moveKeyDir 'w' = oppositeDir Direction.DOWN then Direction.DOWN else moveKeyDir 'w') ∧
    ((readInput ['d'] Direction.UP false).dir =
      if moveKeyDir 'd' = oppositeDir Direction.UP then Direction.UP else moveKeyDir 'd') :=
  ⟨readInput_uturn_guard Direction.DOWN false 'w' (Or.inl rfl),
   readInput_uturn_guard Direction.UP false 'd' (Or.inr (Or.inr (Or.inr rfl)))⟩

/-- During play (`gameRunning = true`) the menu can only loop, drain escape
sequences, show the controls screen, quit, or resume; it never changes the
game state it was entered with. -/
lemma showMenuAux_running_resume (probe : Option (Int × Int))
    (foodDraws : List (Nat × Nat)) :
    ∀ fuel input (g g2 : GameState) rest, g.gameRunning = true →
      showMenuAux false probe foodDraws fuel g input = MenuResult.resume g2 rest →
      g2 = g := by
  intro fuel
  induction fuel with
  | zero =>
    intro input g g2 rest _ hres
    cases input <;> exact absurd hres (by rw [showMenuAux] <;> simp)
  | succ fuel ih =>
    intro input g g2 rest hrun hres
    cases input with
    | nil => exact absurd hres (by rw [showMenuAux]; simp)
    | cons choice cs =>
      rw [showMenuAux] at hres
      by_cases h1 : choice = escByte ∧ cs ≠ []
      · rw [if_pos h1] at hres
        exact ih [] g g2 rest hrun hres
      · rw [if_neg h1] at hres
        by_cases h2 : choice = '1' ∨ choice = 'm' ∨ choice = 'M' ∨ choice = escByte
        · rw [if_pos h2, if_pos hrun] at hres
          cases hres
          rfl
        · rw [if_neg h2] at hres
          rw [if_neg (by simp [hrun])] at hres
          by_cases h3 : choice = '3'
          · rw [if_pos h3] at hres
            exact ih (cs.drop 1) g g2 rest hrun hres
          · rw [if_neg h3] at hres
            by_cases h4 : choice = '4'
            · rw [if_pos h4] at hres
              exact absurd hres (by simp)
            · rw [if_neg h4] at hres
              exact ih cs g g2 rest hrun hres

/-- Claim C8: opening the menu during a running game and resuming returns
exactly the entry state with the pause flag forced false — snake, food and
heading unchanged, no re-initialisation. -/
theorem menu_during_play_preserves_game (probe : Option (Int × Int))
    (foodDraws : List (Nat × Nat)) (g : GameState) (menuInput : List Char)
    (g2 : GameState) (rest : List Char) (hrun : g.gameRunning = true)
    (hres : openMenuDuringPlay probe foodDraws g menuInput = MenuResult.resume g2 rest) :
    g2 = { g with isPaused := false } ∧
    g2.snake = g.snake ∧ g2.food = g.food ∧ g2.dir = g.dir ∧ g2.isPaused = false := by
  rw [openMenuDuringPlay] at hres
  cases hsm : showMenu false probe foodDraws g menuInput with
  | resume g3 r =>
    rw [hsm] at hres
    have hg3 : g3 = g :=
      showMenuAux_running_resume probe foodDraws menuInput.length menuInput g g3 r hrun hsm
    cases hres
    rw [hg3]
    exact ⟨rfl, rfl, rfl, rfl, rfl⟩
  | quit g3 e =>
    rw [hsm] at hres
    exact absurd hres (by simp)
  | blocked g3 =>
    rw [hsm] at hres
    exact absurd hres (by simp)

/-- Witness for C8: entering the menu mid-game (snake `[(10,5)]` running)
and resuming with `'m'` preserves snake, food and heading. -/
theorem menu_during_play_preserves_game_witness :
    ({ moveGame with isPaused := false } : GameState).snake = moveGame.snake ∧
    ({ moveGame with isPaused := false } : GameState).food = moveGame.food ∧
    ({ moveGame with isPaused := false } : GameState).dir = moveGame.dir :=
  let r := menu_during_play_preserves_game (some (80, 24)) [] moveGame ['m']
    { moveGame with isPaused := false } [] (by decide) (by decide)
  ⟨r.2.1, r.2.2.1, r.2.2.2.1⟩

/-- Claim C9: when the candidate head collides (wall or self), `updateSnake`
ends the game: it emits the one-line `Game Over!` reason, and exits through
`cleanupAndExit(0)`, which restores the terminal and reports status 0. -/
theorem updateSnake_collision_exit (g : GameState) (foodDraws : List (Nat × Nat)) (back : Coord)
    (hd : g.dir ≠ Direction.STOP) (hb : g.snake.getLast? = some back)
    (hc : checkCollision g.width g.height g.snake (moveHead g.dir back) ≠ "") :
    updateSnake g foodDraws =
      StepResult.gameOver
        ("Game Over! " ++ checkCollision g.width g.height g.snake (moveHead g.dir back))
        (cleanupAndExit 0) ∧
    (cleanupAndExit 0).restoredInput = true ∧
    (cleanupAndExit 0).status = 0 ∧
    (checkCollision g.width g.height g.snake (moveHead g.dir back) = "You hit a wall!" ∨
      checkCollision g.width g.height g.snake (moveHead g.dir back) = "You ran into yourself!") := by
  refine ⟨?_, rfl, rfl, ?_⟩
  · rw [updateSnake, if_neg hd, hb]
    simp only []
    rw [if_pos hc]
  · rw [checkCollision]
    by_cases hwall : (moveHead g.dir back).x = 0 ∨ (moveHead g.dir back).x = g.width - 1 ∨
        (moveHead g.dir back).y = 0 ∨ (moveHead g.dir back).y = g.height - 1
    · rw [if_pos hwall]
      exact Or.inl rfl
    · rw [if_neg hwall]
      by_cases hs : onSnake g.snake (moveHead g.dir back)
      · rw [if_pos hs]
        exact Or.inr rfl
      · exfalso
        apply hc
        rw [checkCollision, if_neg hwall, if_neg hs]

/-- Witness for C9: the spec's wall scenario, snake `[(18,5)]` heading
Right into the wall at `(19,5)`. -/
theorem updateSnake_collision_exit_witness :
    updateSnake wallGame [] =
      StepResult.gameOver
        ("Game Over! " ++ checkCollision wallGame.width wallGame.height wallGame.snake
          (moveHead wallGame.dir ⟨18, 5⟩))
        (cleanupAndExit 0) ∧
    (cleanupAndExit 0).restoredInput = true ∧
    (cleanupAndExit 0).status = 0 ∧
    (checkCollision wallGame.width wallGame.height wallGame.snake
        (moveHead wallGame.dir ⟨18, 5⟩) = "You hit a wall!" ∨
      checkCollision wallGame.width wallGame.height wallGame.snake
        (moveHead wallGame.dir ⟨18, 5⟩) = "You ran into yourself!") :=
  updateSnake_collision_exit wallGame [] ⟨18, 5⟩ (by decide) (by decide) (by decide)

/-- Claim C10: `initializeGame` leaves the snake as the single centre cell
`(width/2, height/2)`, interior for every reachable dimension pair (the
dimensions start at 20×10 and `initializeDimensions` keeps width ≥ 10 and
height ≥ 4); it does not touch the heading, which is `STOP` at program
start, and a `STOP` heading makes `updateSnake` a no-op. -/
theorem initializeGame_center_stop (g : GameState) (foodDraws : List (Nat × Nat))
    (hw : 10 ≤ g.width) (hh : 4 ≤ g.height) :
    (initializeGame g foodDraws).snake = [⟨g.width / 2, g.height / 2⟩] ∧
    isInterior g.width g.height ⟨g.width / 2, g.height / 2⟩ ∧
    (initializeGame g foodDraws).dir = g.dir ∧
    initialState.dir = Direction.STOP ∧
    (∀ g2 fd, g2.dir = Direction.STOP → updateSnake g2 fd = StepResult.next g2) ∧
    (∀ half probe w2 h2, 10 ≤ w2 → 4 ≤ h2 →
      10 ≤ (initializeDimensions half probe w2 h2).1.1 ∧
      4 ≤ (initializeDimensions half probe w2 h2).1.2) ∧
    10 ≤ initialState.width ∧ 4 ≤ initialState.height := by
  refine ⟨?_, ?_, ?_, rfl, ?_, ?_, by decide, by decide⟩
  · rw [initializeGame]
    cases hgen : generateFoodPosition g.width g.height [⟨g.width / 2, g.height / 2⟩]
        foodDraws <;> rfl
  · dsimp only [isInterior]
    omega
  · rw [initializeGame]
    cases hgen : generateFoodPosition g.width g.height [⟨g.width / 2, g.height / 2⟩]
        foodDraws <;> rfl
  · intro g2 fd hstop
    rw [updateSnake, if_pos hstop]
  · intro half probe w2 h2 hw2 hh2
    cases probe with
    | none =>
      rw [initializeDimensions]
      exact ⟨hw2, hh2⟩
    | some p =>
      obtain ⟨cols, rows⟩ := p
      rw [initializeDimensions]
      split_ifs <;> constructor <;> simp <;> omega

/-- Witness for C10: initialising from the startup state puts the snake at
the interior centre `(10,5)` of the default 20×10 board. -/
theorem initializeGame_center_stop_witness :
    (initializeGame initialState []).snake = [⟨10, 5⟩] ∧
    isInterior initialState.width initialState.height ⟨10, 5⟩ :=
  let r := initializeGame_center_stop initialState [] (by decide) (by decide)
  ⟨r.1, r.2.1⟩
